import Mathlib

/-!
Verification of the data-acquisition pipeline of the weather-display
repository (`src/platformio`): JSON deserialization into fixed-size records
(`api_response.cpp`), ISO-8601 timestamp parsing (`parseISO8601`), and the
bounded-retry fetch loops (`client_utils.cpp`).

The embedding is shallow: each C++ function is translated into an executable
Lean definition over an explicit JSON value model.  The JSON text parser
models the ArduinoJson `deserializeJson` routine (standard JSON, any value allowed at
the root, trailing input after the document ignored); `operator|` defaulting
is modelled by the `asIntOr` / `asFloatOr` / `asStrOr` accessors, which
substitute the default exactly when the stored value is not of the requested
type (the ArduinoJson `is<T>()` test).  C `int` is 32-bit on the ESP32 target, so
integer extraction checks that range.  `mktime` is modelled with local time
equal to UTC and no DST shift (the source passes `tm_isdst = -1`, letting the
runtime resolve DST; calendar-field statements are offset-invariant because
the inverse conversion uses the same clock).
-/

set_option autoImplicit false

namespace WeatherDisplay

/-- JSON value model for the ArduinoJson `JsonDocument`.  Numbers parsed with a
fraction or exponent are stored as floats (modelled exactly, as rationals);
plain integer tokens are stored as integers. -/
inductive JVal where
  | jnull : JVal
  | jbool : Bool → JVal
  | jint : Int → JVal
  | jfloat : ℚ → JVal
  | jstr : String → JVal
  | jarr : List JVal → JVal
  | jobj : List (String × JVal) → JVal

/-- The opening-brace character. -/
def lbraceChar : Char := Char.ofNat 123

/-- The closing-brace character. -/
def rbraceChar : Char := Char.ofNat 125

/-- JSON whitespace characters (space, tab, line feed, carriage return). -/
def isJsonWs (c : Char) : Bool :=
  [' ', '\t', '\n', '\r'].contains c

/-- Drop leading JSON whitespace. -/
def skipJsonWs (cs : List Char) : List Char :=
  cs.dropWhile isJsonWs

/-- Match a literal keyword tail such as `rue` of `true`. -/
def stripLit : List Char → List Char → Option (List Char)
  | [], cs => some cs
  | _, [] => none
  | l :: ls, c :: cs => if c == l then stripLit ls cs else none

/-- Value of a hexadecimal digit. -/
def hexVal (c : Char) : Option Nat :=
  if c.isDigit then some (c.toNat - 48)
  else if 'a' ≤ c ∧ c ≤ 'f' then some (c.toNat - 87)
  else if 'A' ≤ c ∧ c ≤ 'F' then some (c.toNat - 55)
  else none

/-- Decode a single-character JSON escape via the escape table. -/
def escChar (c : Char) : Option Char :=
  (([('b', Char.ofNat 8), ('f', Char.ofNat 12), ('n', '\n'), ('r', '\r'), ('t', '\t'),
    ('"', '"'), ('\\', '\\'), ('/', '/')].find? (fun p => p.1 == c)).map Prod.snd)

/-- Scan the body of a JSON string literal (after the opening quote) up to and
including the closing quote, decoding escapes.  Fuel-indexed. -/
def parseStrChars : Nat → List Char → Option (List Char × List Char)
  | 0, _ => none
  | Nat.succ fuel, cs =>
    match cs with
    | [] => none
    | c :: rest =>
      if c == '"' then some ([], rest)
      else if c == '\\' then
        match rest with
        | [] => none
        | e :: rest2 =>
          if e == 'u' then
            match rest2 with
            | h1 :: h2 :: h3 :: h4 :: rest6 =>
              match hexVal h1, hexVal h2, hexVal h3, hexVal h4 with
              | some a, some b, some c3, some d =>
                match parseStrChars fuel rest6 with
                | some (tail, r) =>
                  some (Char.ofNat (((a * 16 + b) * 16 + c3) * 16 + d) :: tail, r)
                | none => none
              | _, _, _, _ => none
            | _ => none
          else
            match escChar e with
            | some ec =>
              match parseStrChars fuel rest2 with
              | some (tail, r) => some (ec :: tail, r)
              | none => none
            | none => none
      else
        match parseStrChars fuel rest with
        | some (tail, r) => some (c :: tail, r)
        | none => none

/-- Numeric value of a digit string. -/
def digitsToNat (ds : List Char) : Nat :=
  ds.foldl (fun a c => a * 10 + (c.toNat - 48)) 0

/-- Scale a rational by a signed power of ten. -/
def tenPow (q : ℚ) (e : Int) : ℚ :=
  if 0 ≤ e then q * (10 : ℚ) ^ e.toNat else q / (10 : ℚ) ^ (-e).toNat

/-- Parse the optional exponent part of a JSON number.  Yields `(none, cs)`
when no exponent marker is present, `(some e, rest)` for a well-formed
exponent, and fails when the marker is present but malformed. -/
def parseExpPart (cs : List Char) : Option (Option Int × List Char) :=
  match cs with
  | [] => some (none, cs)
  | c :: r =>
    if c == 'e' || c == 'E' then
      let sr : Bool × List Char :=
        match r with
        | c2 :: r2 =>
          if c2 == '-' then (true, r2)
          else if c2 == '+' then (false, r2)
          else (false, r)
        | [] => (false, r)
      let ds := sr.2.takeWhile Char.isDigit
      if ds.isEmpty then none
      else some (some ((if sr.1 then -1 else 1) * (digitsToNat ds : Int)), sr.2.drop ds.length)
    else some (none, cs)

/-- Parse a JSON number token.  A token with a fraction or exponent yields a
float (`jfloat`), a plain integer token yields `jint`. -/
def parseNumber (cs : List Char) : Option (JVal × List Char) :=
  let sr : Bool × List Char :=
    match cs with
    | c :: r => if c == '-' then (true, r) else (false, cs)
    | [] => (false, cs)
  let neg := sr.1
  let cs1 := sr.2
  let ip := cs1.takeWhile Char.isDigit
  if ip.isEmpty then none
  else
    let cs2 := cs1.drop ip.length
    let fr : Option (List Char) × List Char :=
      match cs2 with
      | c :: r =>
        if c == '.' then
          let f := r.takeWhile Char.isDigit
          (some f, r.drop f.length)
        else (none, cs2)
      | [] => (none, cs2)
    match fr.1 with
    | some f =>
      if f.isEmpty then none
      else
        match parseExpPart fr.2 with
        | none => none
        | some (eo, rest) =>
          let base : ℚ := (if neg then -1 else 1) *
            ((digitsToNat ip : ℚ) + tenPow (digitsToNat f : ℚ) (-(f.length : Int)))
          some (JVal.jfloat (tenPow base (eo.getD 0)), rest)
    | none =>
      match parseExpPart fr.2 with
      | none => none
      | some (none, rest) =>
        some (JVal.jint ((if neg then -1 else 1) * (digitsToNat ip : Int)), rest)
      | some (some e, rest) =>
        some (JVal.jfloat (tenPow ((if neg then -1 else 1) * (digitsToNat ip : ℚ)) e), rest)

mutual

/-- Parse one JSON value, modelling the ArduinoJson `deserializeJson` document
grammar.  Fuel-indexed; the caller supplies fuel exceeding the input length. -/
def parseVal : Nat → List Char → Option (JVal × List Char)
  | 0, _ => none
  | Nat.succ fuel, cs =>
    match skipJsonWs cs with
    | [] => none
    | c :: rest =>
      if c == lbraceChar then parseObjItems fuel rest []
      else if c == '[' then parseArrItems fuel rest []
      else if c == '"' then
        match parseStrChars (rest.length + 1) rest with
        | some (sc, r2) => some (JVal.jstr (String.mk sc), r2)
        | none => none
      else if c == 't' then
        match stripLit (['r', 'u', 'e']) rest with
        | some r2 => some (JVal.jbool true, r2)
        | none => none
      else if c == 'f' then
        match stripLit (['a', 'l', 's', 'e']) rest with
        | some r2 => some (JVal.jbool false, r2)
        | none => none
      else if c == 'n' then
        match stripLit (['u', 'l', 'l']) rest with
        | some r2 => some (JVal.jnull, r2)
        | none => none
      else parseNumber (c :: rest)

/-- Parse the members of a JSON object after the opening brace. -/
def parseObjItems : Nat → List Char → List (String × JVal) → Option (JVal × List Char)
  | 0, _, _ => none
  | Nat.succ fuel, cs, acc =>
    match skipJsonWs cs with
    | [] => none
    | c :: rest =>
      if acc.isEmpty && c == rbraceChar then some (JVal.jobj [], rest)
      else if c == '"' then
        match parseStrChars (rest.length + 1) rest with
        | none => none
        | some (kc, r2) =>
          match skipJsonWs r2 with
          | ':' :: r3 =>
            match parseVal fuel r3 with
            | none => none
            | some (v, r4) =>
              match skipJsonWs r4 with
              | ',' :: r5 => parseObjItems fuel r5 (acc ++ [(String.mk kc, v)])
              | d :: r5 =>
                if d == rbraceChar then some (JVal.jobj (acc ++ [(String.mk kc, v)]), r5)
                else none
              | [] => none
          | _ => none
      else none

/-- Parse the elements of a JSON array after the opening bracket. -/
def parseArrItems : Nat → List Char → List JVal → Option (JVal × List Char)
  | 0, _, _ => none
  | Nat.succ fuel, cs, acc =>
    match skipJsonWs cs with
    | [] => none
    | c :: rest =>
      if acc.isEmpty && c == ']' then some (JVal.jarr [], rest)
      else
        match parseVal fuel (c :: rest) with
        | none => none
        | some (v, r2) =>
          match skipJsonWs r2 with
          | ',' :: r3 => parseArrItems fuel r3 (acc ++ [v])
          | ']' :: r3 => some (JVal.jarr (acc ++ [v]), r3)
          | _ => none

end

/-- Model of the ArduinoJson `deserializeJson` routine: parse one JSON document from the
text, any value kind allowed at the root; `none` models a nonzero
`DeserializationError` (invalid, incomplete, or empty input).  Input after the
end of the document is ignored, as ArduinoJson stops at the end of the root
value. -/
def jsonParse (s : String) : Option JVal :=
  match parseVal (s.length + 2) s.data with
  | some (v, _) => some v
  | none => none


/-- True when the parsed document root is a JSON object. -/
def rootIsObject : Option JVal → Bool
  | some (JVal.jobj _) => true
  | _ => false

/-- First-match association lookup among the members of a JSON object. -/
def lookupKey : List (String × JVal) → String → JVal
  | [], _ => JVal.jnull
  | (k2, v) :: rest, k => if k2 == k then v else lookupKey rest k

/-- ArduinoJson `operator[]` with a string key: member of an object, or null
when the key is absent or the value is not an object (a null `JsonObject`
subscripts to null). -/
def member (v : JVal) (k : String) : JVal :=
  match v with
  | JVal.jobj kvs => lookupKey kvs k
  | _ => JVal.jnull

/-- ArduinoJson `JsonArray::size()`: zero for a null or non-array value. -/
def arrSize (v : JVal) : Nat :=
  match v with
  | JVal.jarr xs => xs.length
  | _ => 0

/-- ArduinoJson `operator[]` with an index: element of an array, or null when
out of range or the value is not an array. -/
def arrAt (v : JVal) (i : Nat) : JVal :=
  match v with
  | JVal.jarr xs => xs.getD i JVal.jnull
  | _ => JVal.jnull

/-- Whether an integer fits the 32-bit C `int` of the ESP32 target. -/
def fitsCInt (n : Int) : Bool :=
  decide (-2147483648 ≤ n ∧ n < 2147483648)

/-- True when ArduinoJson `is<int>()` holds: the stored value is an integer in
the range of C `int`.  Floats, strings, booleans and null all fail. -/
def isIntCompatible (v : JVal) : Bool :=
  match v with
  | JVal.jint n => fitsCInt n
  | _ => false

/-- True when ArduinoJson `is<float>()` holds: the stored value is numeric. -/
def isFloatCompatible (v : JVal) : Bool :=
  match v with
  | JVal.jint _ => true
  | JVal.jfloat _ => true
  | _ => false

/-- True when ArduinoJson `is<const char*>()` holds: the value is a string. -/
def isStrCompatible (v : JVal) : Bool :=
  match v with
  | JVal.jstr _ => true
  | _ => false

/-- ArduinoJson `value | default` for a C `int` target: the stored integer
when it is one (and fits), otherwise the default. -/
def asIntOr (v : JVal) (d : Int) : Int :=
  match v with
  | JVal.jint n => if fitsCInt n then n else d
  | _ => d

/-- ArduinoJson `value | default` for a float target: the stored number
(integers convert), otherwise the default. -/
def asFloatOr (v : JVal) (d : ℚ) : ℚ :=
  match v with
  | JVal.jint n => (n : ℚ)
  | JVal.jfloat q => q
  | _ => d

/-- ArduinoJson `value | default` for a string target: the stored string,
otherwise the default. -/
def asStrOr (v : JVal) (d : String) : String :=
  match v with
  | JVal.jstr s => s
  | _ => d

/-- C `static_cast<int>` from a floating value: truncation toward zero. -/
def ratTrunc (q : ℚ) : Int :=
  Int.tdiv q.num (q.den : Int)

/-- Days from the civil epoch 1970-01-01 (proleptic Gregorian), after the
standard civil-calendar algorithm; linear in `d`, so the `mktime` normalization
of an out-of-range day-of-month is covered. -/
def daysFromCivil (y m d : Int) : Int :=
  let y2 := if m ≤ 2 then y - 1 else y
  let era := Int.fdiv y2 400
  let yoe := y2 - era * 400
  let mp := Int.emod (m + 9) 12
  let doy := Int.fdiv (153 * mp + 2) 5 + d - 1
  let doe := yoe * 365 + Int.fdiv yoe 4 - Int.fdiv yoe 100 + doy
  era * 146097 + doe - 719468

/-- Model of C `mktime` on the `tm` record built by `parseISO8601`, with the
tm field conventions of the source (`tm_year` counts from 1900, `tm_mon` from 0).
Out-of-range fields are normalized as `mktime` does.  Local time is modelled
as UTC with no DST shift: the source sets `tm_isdst = -1` and the spec (§4.2)
leaves offset handling to the caller, so calendar-field claims are stated
against the matching inverse `civilFromEpoch`. -/
def mktimeModel (tmYear tmMon tmMday tmHour tmMin tmSec : Int) : Int :=
  let y := 1900 + tmYear + Int.fdiv tmMon 12
  let m := Int.emod tmMon 12
  daysFromCivil y (m + 1) tmMday * 86400 + tmHour * 3600 + tmMin * 60 + tmSec

/-- Civil calendar date from a day count since 1970-01-01 (inverse of
`daysFromCivil`). -/
def civilFromDays (z0 : Int) : Int × Int × Int :=
  let z := z0 + 719468
  let era := Int.fdiv z 146097
  let doe := z - era * 146097
  let yoe := Int.fdiv (doe - Int.fdiv doe 1460 + Int.fdiv doe 36524 - Int.fdiv doe 146096) 365
  let y := yoe + era * 400
  let doy := doe - (365 * yoe + Int.fdiv yoe 4 - Int.fdiv yoe 100)
  let mp := Int.fdiv (5 * doy + 2) 153
  let d := doy - Int.fdiv (153 * mp + 2) 5 + 1
  let m := mp + (if mp < 10 then 3 else -9)
  (if m ≤ 2 then y + 1 else y, m, d)

/-- Calendar fields of an epoch value under the same (UTC-modelled) local
clock as `mktimeModel`. -/
structure CivilTime where
  year : Int
  month : Int
  day : Int
  hour : Int
  minute : Int
  second : Int
deriving DecidableEq, Repr

/-- Local calendar fields of an epoch-seconds value (inverse of the
`mktimeModel` conversion). -/
def civilFromEpoch (t : Int) : CivilTime :=
  let days := Int.fdiv t 86400
  let secs := Int.emod t 86400
  let ymd := civilFromDays days
  ⟨ymd.1, ymd.2.1, ymd.2.2, Int.fdiv secs 3600, Int.fdiv (Int.emod secs 3600) 60,
    Int.emod secs 60⟩


/-- C `isspace` characters skipped by `sscanf` before a `%d` conversion. -/
def isCSpace (c : Char) : Bool :=
  [' ', '\t', '\n', '\x0b', '\x0c', '\r'].contains c

/-- `sscanf` `%d` conversion: skip whitespace, then an optional sign and at
least one digit; fails (stopping the scan) when no digit follows. -/
def scanInt (cs : List Char) : Option (Int × List Char) :=
  let cs1 := cs.dropWhile isCSpace
  let sr : Bool × List Char :=
    match cs1 with
    | c :: r =>
      if c == '-' then (true, r)
      else if c == '+' then (false, r)
      else (false, cs1)
    | [] => (false, cs1)
  let ds := sr.2.takeWhile Char.isDigit
  if ds.isEmpty then none
  else
    some ((if sr.1 then -(digitsToNat ds : Int) else (digitsToNat ds : Int)),
      sr.2.drop ds.length)

/-- Match one literal (non-whitespace) format character, as `sscanf` does. -/
def matchLit (c : Char) (cs : List Char) : Option (List Char) :=
  match cs with
  | x :: r => if x == c then some r else none
  | [] => none

/-- Result of `sscanf(datetime, "%d-%d-%dT%d:%d", ...)` in `parseISO8601`:
the number of conversions completed plus the scanned fields.  `hour` and
`minute` carry the local-variable initializers of the source (12 and 0) until the
corresponding conversion succeeds; `year`, `month`, `day` are only consumed
by the caller when `count ≥ 3`. -/
structure ScanResult where
  count : Nat
  year : Int
  month : Int
  day : Int
  hour : Int
  minute : Int
deriving DecidableEq, Repr

/-- The `sscanf` call of `parseISO8601`, scanning `"%d-%d-%dT%d:%d"` over the
input and stopping at the first failed conversion or literal mismatch. -/
def scanISO (s : String) : ScanResult :=
  let d0 : ScanResult := ⟨0, 0, 0, 0, 12, 0⟩
  match scanInt s.data with
  | none => d0
  | some (y, r1) =>
    let d1 := { d0 with count := 1, year := y }
    match matchLit '-' r1 with
    | none => d1
    | some r2 =>
      match scanInt r2 with
      | none => d1
      | some (mo, r3) =>
        let d2 := { d1 with count := 2, month := mo }
        match matchLit '-' r3 with
        | none => d2
        | some r4 =>
          match scanInt r4 with
          | none => d2
          | some (dy, r5) =>
            let d3 := { d2 with count := 3, day := dy }
            match matchLit 'T' r5 with
            | none => d3
            | some r6 =>
              match scanInt r6 with
              | none => d3
              | some (h, r7) =>
                let d4 := { d3 with count := 4, hour := h }
                match matchLit ':' r7 with
                | none => d4
                | some r8 =>
                  match scanInt r8 with
                  | none => d4
                  | some (mi, _) => { d4 with count := 5, minute := mi }

/-- `parseISO8601` of `api_response.cpp`: scan `"%d-%d-%dT%d:%d"`, and when at
least three conversions succeed, build the `tm` record (year − 1900, month −
1, day, hour, minute, 0 seconds) and convert it with `mktime`; otherwise
return 0. -/
def parseISO8601 (s : String) : Int :=
  let sc := scanISO s
  if 3 ≤ sc.count then
    mktimeModel (sc.year - 1900) (sc.month - 1) sc.day sc.hour sc.minute 0
  else 0


/-- `om_current_t` of `api_response.h`: current conditions in native API
units. -/
structure OmCurrent where
  temp : ℚ
  feels_like : ℚ
  humidity : Int
  pressure : Int
  wind_speed : ℚ
  wind_deg : Int
  wind_gust : ℚ
  uvi : ℚ
  visibility : Int
  weather_code : Int
  is_day : Int
  sunrise : Int
  sunset : Int
deriving DecidableEq, Repr

/-- `om_hourly_t` of `api_response.h`: one hourly forecast point. -/
structure OmHourly where
  dt : Int
  temp : ℚ
  humidity : Int
  pop : ℚ
  precipitation : ℚ
  weather_code : Int
  is_day : Int
deriving DecidableEq, Repr

/-- `om_daily_t` of `api_response.h`: one daily forecast point. -/
structure OmDaily where
  dt : Int
  temp_min : ℚ
  temp_max : ℚ
  sunrise : Int
  sunset : Int
  pop : ℚ
  precipitation : ℚ
  weather_code : Int
  uvi : ℚ
deriving DecidableEq, Repr

/-- `om_resp_forecast_t` of `api_response.h`.  The C arrays
`hourly[OM_NUM_HOURLY]` and `daily[OM_NUM_DAILY]` are modelled as lists whose
lengths (48 and 8) are carried by the theorems; in-place element writes become
`List.set`, which cannot grow the list. -/
structure OmRespForecast where
  lat : ℚ
  lon : ℚ
  timezone : String
  timezone_offset : Int
  current : OmCurrent
  hourly : List OmHourly
  daily : List OmDaily
deriving DecidableEq, Repr

/-- `om_resp_air_quality_t` of `api_response.h`. -/
structure OmRespAirQuality where
  aqi : Int
deriving DecidableEq, Repr

/-- Modelled from the spec: the zero/epoch-zero default hourly slot (§3 —
"unused trailing slots retain zero-valued defaults"). -/
def zeroHourly : OmHourly :=
  ⟨0, 0, 0, 0, 0, 0, 0⟩

/-- Modelled from the spec: the zero/epoch-zero default daily slot (§3). -/
def zeroDaily : OmDaily :=
  ⟨0, 0, 0, 0, 0, 0, 0, 0, 0⟩

/-- Modelled from the spec: the caller-supplied output record in its
initial zero/default state.  The caller (`main.cpp`) is not under `src/`;
§3 and §8 of the spec describe untouched slots as holding zero/epoch-zero
defaults, so the record handed to the deserializer starts zeroed. -/
def zeroForecastRecord : OmRespForecast :=
  ⟨0, 0, "", 0, ⟨0, 0, 0, 0, 0, 0, 0, 0, 0, 0, 0, 0, 0⟩,
    List.replicate 48 zeroHourly, List.replicate 8 zeroDaily⟩

/-- Modelled from the spec: the air-quality record in its initial zero state. -/
def zeroAirQualityRecord : OmRespAirQuality :=
  ⟨0⟩

/-- `OM_NUM_HOURLY` of `api_response.h`. -/
def OM_NUM_HOURLY : Nat := 48

/-- `OM_NUM_DAILY` of `api_response.h`. -/
def OM_NUM_DAILY : Nat := 8

/-- `DeserializationError` of ArduinoJson, collapsed to the distinction the
source tests (`if (error)`): success versus any failed deserialization. -/
inductive DeserializationError where
  | ok : DeserializationError
  | invalidInput : DeserializationError
deriving DecidableEq, Repr

/-- Body of the hourly loop of `deserializeForecast` (lines 103–112): all
seven fields of slot `i` are assigned from the parallel arrays, with
ArduinoJson defaults for absent or mistyped elements. -/
def parseHourlySlot (hourly : JVal) (i : Nat) : OmHourly :=
  { dt := parseISO8601 (asStrOr (arrAt (member hourly ("time")) i) (""))
    temp := asFloatOr (arrAt (member hourly ("temperature_2m")) i) 0
    humidity := asIntOr (arrAt (member hourly ("relative_humidity_2m")) i) 0
    pop := asFloatOr (arrAt (member hourly ("precipitation_probability")) i) 0
    precipitation := asFloatOr (arrAt (member hourly ("precipitation")) i) 0
    weather_code := asIntOr (arrAt (member hourly ("weather_code")) i) 0
    is_day := asIntOr (arrAt (member hourly ("is_day")) i) 1 }

/-- Body of the daily loop of `deserializeForecast` (lines 126–137). -/
def parseDailySlot (daily : JVal) (i : Nat) : OmDaily :=
  { dt := parseISO8601 (asStrOr (arrAt (member daily ("time")) i) (""))
    temp_max := asFloatOr (arrAt (member daily ("temperature_2m_max")) i) 0
    temp_min := asFloatOr (arrAt (member daily ("temperature_2m_min")) i) 0
    sunrise := parseISO8601 (asStrOr (arrAt (member daily ("sunrise")) i) (""))
    sunset := parseISO8601 (asStrOr (arrAt (member daily ("sunset")) i) (""))
    pop := asFloatOr (arrAt (member daily ("precipitation_probability_max")) i) 0
    precipitation := asFloatOr (arrAt (member daily ("precipitation_sum")) i) 0
    weather_code := asIntOr (arrAt (member daily ("weather_code")) i) 0
    uvi := asFloatOr (arrAt (member daily ("uv_index_max")) i) 0 }

/-- Number of entries of the hourly `time` array of a forecast document; the
hourly loop runs `min OM_NUM_HOURLY` of it. -/
def forecastHourlyCount (doc : JVal) : Nat :=
  arrSize (member (member doc ("hourly")) ("time"))

/-- Number of entries of the daily `time` array of a forecast document. -/
def forecastDailyCount (doc : JVal) : Nat :=
  arrSize (member (member doc ("daily")) ("time"))

/-- Field extraction of `deserializeForecast` (lines 66–141), applied after a
successful `deserializeJson`: root scalars, current conditions, the two
bounded lock-step loops over the parallel hourly/daily arrays, and the final
copy of `daily[0].sunrise`/`sunset` into `current`. -/
def parseForecastDoc (doc : JVal) (r : OmRespForecast) : OmRespForecast :=
  let current := member doc ("current")
  let cur1 : OmCurrent :=
    { temp := asFloatOr (member current ("temperature_2m")) 0
      feels_like := asFloatOr (member current ("apparent_temperature")) 0
      humidity := asIntOr (member current ("relative_humidity_2m")) 0
      pressure := ratTrunc (asFloatOr (member current ("pressure_msl")) 0)
      wind_speed := asFloatOr (member current ("wind_speed_10m")) 0
      wind_deg := asIntOr (member current ("wind_direction_10m")) 0
      wind_gust := asFloatOr (member current ("wind_gusts_10m")) 0
      uvi := asFloatOr (member current ("uv_index")) 0
      visibility := asIntOr (member current ("visibility")) 10000
      weather_code := asIntOr (member current ("weather_code")) 0
      is_day := asIntOr (member current ("is_day")) 1
      sunrise := r.current.sunrise
      sunset := r.current.sunset }
  let hourlyObj := member doc ("hourly")
  let newHourly :=
    (List.range (min OM_NUM_HOURLY (forecastHourlyCount doc))).foldl
      (fun acc i => acc.set i (parseHourlySlot hourlyObj i)) r.hourly
  let dailyObj := member doc ("daily")
  let newDaily :=
    (List.range (min OM_NUM_DAILY (forecastDailyCount doc))).foldl
      (fun acc i => acc.set i (parseDailySlot dailyObj i)) r.daily
  let d0 := newDaily.getD 0 zeroDaily
  { lat := asFloatOr (member doc ("latitude")) 0
    lon := asFloatOr (member doc ("longitude")) 0
    timezone := asStrOr (member doc ("timezone")) ("UTC")
    timezone_offset := asIntOr (member doc ("utc_offset_seconds")) 0
    current := { cur1 with sunrise := d0.sunrise, sunset := d0.sunset }
    hourly := newHourly
    daily := newDaily }

/-- `deserializeForecast` of `api_response.cpp`: deserialize the JSON text,
return the error with the record untouched when deserialization fails, and
otherwise extract fields and return `Ok`. -/
def deserializeForecast (json : String) (r : OmRespForecast) :
    DeserializationError × OmRespForecast :=
  match jsonParse json with
  | none => (DeserializationError.invalidInput, r)
  | some doc => (DeserializationError.ok, parseForecastDoc doc r)

/-- `deserializeAirQuality` of `api_response.cpp`: deserialize the JSON text,
return the error with the record untouched on failure, and otherwise read
`current.us_aqi` with default 0. -/
def deserializeAirQuality (json : String) (r : OmRespAirQuality) :
    DeserializationError × OmRespAirQuality :=
  match jsonParse json with
  | none => (DeserializationError.invalidInput, r)
  | some doc =>
    (DeserializationError.ok, ⟨asIntOr (member (member doc ("current")) ("us_aqi")) 0⟩)


/-- `isRetryableError` of `client_utils.cpp`: only the four transient
connection errors of the HTTPClient taxonomy are retryable. -/
def isRetryableError (httpCode : Int) : Bool :=
  if httpCode = -1 then true
  else if httpCode = -4 then true
  else if httpCode = -5 then true
  else if httpCode = -11 then true
  else false

/-- One HTTP attempt as the retry loop observes it: the result of
`http.GET()` and the body that `http.getString()` would return (read only
when the code is 200). -/
def Attempt : Type := Int × String

/-- Outcome of one run of a fetch loop: the return value, the record state,
the number of attempts consumed, and the number of inter-attempt delays
(`delay(API_RETRY_DELAY)` calls) executed. -/
structure FetchRunResult (α : Type) where
  ok : Bool
  record : α
  attemptsUsed : Nat
  delays : Nat
deriving DecidableEq, Repr

/-- The retry loop shared by `getForecast` and `getAirQuality`
(`client_utils.cpp` lines 145–236 and 264–355; the two bodies are verbatim
duplicates except for the parse call).  The list holds the outcomes of the
up-to-`API_RETRY_ATTEMPTS` attempts, so `rest ≠ []` models the source condition
`attempt < API_RETRY_ATTEMPTS`; an empty list is the degenerate
`API_RETRY_ATTEMPTS = 0` run that falls through to "Unknown error after
retries". -/
def retryFetchLoop {α : Type} (parse : String → α → DeserializationError × α) :
    List Attempt → α → FetchRunResult α
  | [], r => ⟨false, r, 0, 0⟩
  | (code, body) :: rest, r =>
    if code = 200 then
      if (parse body r).1 = DeserializationError.ok then ⟨true, (parse body r).2, 1, 0⟩
      else ⟨false, (parse body r).2, 1, 0⟩
    else if isRetryableError code && !rest.isEmpty then
      let res := retryFetchLoop parse rest r
      ⟨res.ok, res.record, res.attemptsUsed + 1, res.delays + 1⟩
    else ⟨false, r, 1, 0⟩

/-- `getForecast` of `client_utils.cpp`, restricted to its retry loop (the
URL construction and logging have no effect on the control flow). -/
def getForecastLoop (attempts : List Attempt) (r : OmRespForecast) :
    FetchRunResult OmRespForecast :=
  retryFetchLoop deserializeForecast attempts r

/-- `getAirQuality` of `client_utils.cpp`, restricted to its retry loop. -/
def getAirQualityLoop (attempts : List Attempt) (r : OmRespAirQuality) :
    FetchRunResult OmRespAirQuality :=
  retryFetchLoop deserializeAirQuality attempts r

/-- Modelled from the spec: the literal date-only shape `YYYY-MM-DD` of §4.2,
used to state what "matches neither of the two shapes" means in the claims. -/
def specDateShape (s : String) : Bool :=
  match s.data with
  | [y1, y2, y3, y4, d1, m1, m2, d2, a1, a2] =>
    y1.isDigit && y2.isDigit && y3.isDigit && y4.isDigit && d1 == '-' &&
      m1.isDigit && m2.isDigit && d2 == '-' && a1.isDigit && a2.isDigit
  | _ => false

/-- Modelled from the spec: the literal date-time shape `YYYY-MM-DDTHH:MM`
of §4.2. -/
def specDateTimeShape (s : String) : Bool :=
  match s.data with
  | [y1, y2, y3, y4, d1, m1, m2, d2, a1, a2, t, h1, h2, c, n1, n2] =>
    y1.isDigit && y2.isDigit && y3.isDigit && y4.isDigit && d1 == '-' &&
      m1.isDigit && m2.isDigit && d2 == '-' && a1.isDigit && a2.isDigit &&
      t == 'T' && h1.isDigit && h2.isDigit && c == ':' && n1.isDigit && n2.isDigit
  | _ => false


section Lemmas

variable {α : Type}

/-- Writing slots by index cannot change the length of the backing list: the
model of the fixed-capacity C arrays never grows. -/
theorem foldl_set_length (f : Nat → α) (l : List Nat) (xs : List α) :
    (l.foldl (fun acc i => acc.set i (f i)) xs).length = xs.length := by
  induction l generalizing xs with
  | nil => rfl
  | cons a t ih => rw [List.foldl_cons, ih, List.length_set]

/-- A slot other than the written one is unchanged by `List.set`. -/
theorem set_getD_ne (xs : List α) (i j : Nat) (a d : α) (h : i ≠ j) :
    (xs.set i a).getD j d = xs.getD j d := by
  simp [List.getD_eq_getElem?_getD, List.getElem?_set_ne h]

/-- A slot whose index is written by none of the loop iterations is unchanged
by the whole loop. -/
theorem foldl_set_getD_not_mem (f : Nat → α) (l : List Nat) (xs : List α)
    (j : Nat) (d : α) (h : ∀ i ∈ l, i ≠ j) :
    (l.foldl (fun acc i => acc.set i (f i)) xs).getD j d = xs.getD j d := by
  induction l generalizing xs with
  | nil => rfl
  | cons a t ih =>
    rw [List.foldl_cons, ih _ (fun i hi => h i (List.mem_cons_of_mem a hi)),
      set_getD_ne _ _ _ _ _ (h a (List.mem_cons_self a t))]

/-- Any slot of a replicated list reads back the replicated element, also out
of range (where `getD` returns the same default). -/
theorem getD_replicate_self (n j : Nat) (x : α) :
    (List.replicate n x).getD j x = x := by
  simp only [List.getD_eq_getElem?_getD, List.getElem?_replicate]
  split <;> rfl

/-- ArduinoJson `operator|` for `int`: when `is<int>()` fails, the default is
substituted. -/
theorem asIntOr_default (v : JVal) (d : Int) (h : isIntCompatible v = false) :
    asIntOr v d = d := by
  cases v <;> simp_all [asIntOr, isIntCompatible]

/-- ArduinoJson `operator|` for strings: when the value is not a string, the
default is substituted. -/
theorem asStrOr_default (v : JVal) (d : String) (h : isStrCompatible v = false) :
    asStrOr v d = d := by
  cases v <;> simp_all [asStrOr, isStrCompatible]

variable (parse : String → α → DeserializationError × α)

/-- The retry loop makes at most as many attempts as the attempt budget. -/
theorem retryLoop_attempts_le (attempts : List Attempt) (r : α) :
    (retryFetchLoop parse attempts r).attemptsUsed ≤ attempts.length := by
  induction attempts generalizing r with
  | nil => simp [retryFetchLoop]
  | cons a t ih =>
    obtain ⟨code, body⟩ := a
    simp only [retryFetchLoop, List.length_cons]
    split
    · split <;> simp
    · split
      · exact Nat.succ_le_succ (ih r)
      · simp

/-- The retry loop makes at least one attempt when the budget is nonzero. -/
theorem retryLoop_attempts_pos (attempts : List Attempt) (r : α)
    (h : attempts ≠ []) : 1 ≤ (retryFetchLoop parse attempts r).attemptsUsed := by
  match attempts with
  | (code, body) :: t =>
    simp only [retryFetchLoop]
    split
    · split <;> simp
    · split
      · simp
      · simp

/-- Exactly one fixed delay separates consecutive attempts: the number of
`delay(API_RETRY_DELAY)` calls is one less than the number of attempts. -/
theorem retryLoop_delays (attempts : List Attempt) (r : α) :
    (retryFetchLoop parse attempts r).delays =
      (retryFetchLoop parse attempts r).attemptsUsed - 1 := by
  induction attempts generalizing r with
  | nil => simp [retryFetchLoop]
  | cons a t ih =>
    obtain ⟨code, body⟩ := a
    simp only [retryFetchLoop]
    split
    · split <;> simp
    · split
      · rename_i hcode hretry
        have hne : t ≠ [] := by
          intro he
          rw [he] at hretry
          simp at hretry
        have hpos := retryLoop_attempts_pos parse t r hne
        simp only []
        rw [ih r]
        omega
      · simp

/-- Every attempt that was followed by another attempt ended in a retryable
transport error: only those outcomes consume a retry. -/
theorem retryLoop_consumed_retryable (attempts : List Attempt) (r : α)
    (j : Nat) (h : j + 1 < (retryFetchLoop parse attempts r).attemptsUsed) :
    isRetryableError (attempts.getD j ((0 : Int), "")).1 = true := by
  induction attempts generalizing r j with
  | nil => simp [retryFetchLoop] at h
  | cons a t ih =>
    obtain ⟨code, body⟩ := a
    rw [retryFetchLoop] at h
    by_cases h200 : code = 200
    · rw [if_pos h200] at h
      split at h <;> simp at h
    · rw [if_neg h200] at h
      by_cases hretry : (isRetryableError code && !t.isEmpty) = true
      · rw [if_pos hretry] at h
        simp only [] at h
        match j with
        | 0 =>
          simp only [List.getD_cons_zero]
          exact (Bool.and_eq_true _ _ |>.mp hretry).1
        | Nat.succ k =>
          simp only [List.getD_cons_succ]
          exact ih r k (by omega)
      · rw [if_neg hretry] at h
        simp at h

end Lemmas

/-- C1 counterexample: `[1]` is valid JSON whose root is not an object, yet
both `deserializeForecast` and `deserializeAirQuality` return `Ok` on it
(every field falls back to its default), contradicting the claim that a
payload whose expected root is not an object fails with
`ParseError::Malformed`. -/
theorem c1_counterexample :
    (jsonParse ("[1]")).isSome = true ∧
    rootIsObject (jsonParse ("[1]")) = false ∧
    (deserializeForecast ("[1]") zeroForecastRecord).1 = DeserializationError.ok ∧
    (deserializeAirQuality ("[1]") zeroAirQualityRecord).1 = DeserializationError.ok := by
  refine ⟨by decide, by decide, ?_, ?_⟩ <;> rfl

/-- C1 (amended): `deserializeForecast` and `deserializeAirQuality` fail
exactly when the payload text is not valid JSON; every structurally valid
payload — including one whose root is not an object — returns `Ok`, because
field-level absence or type mismatch is never escalated to a failure. -/
theorem c1_amended (s : String) (rf : OmRespForecast) (ra : OmRespAirQuality) :
    ((deserializeForecast s rf).1 = DeserializationError.ok ↔ (jsonParse s).isSome = true) ∧
    ((deserializeAirQuality s ra).1 = DeserializationError.ok ↔ (jsonParse s).isSome = true) := by
  cases h : jsonParse s <;>
    simp [deserializeForecast, deserializeAirQuality, h]

/-- C3: for every payload text and every record whose hourly and daily
sequences have the compile-time lengths 48 and 8, the record returned by
`deserializeForecast` still has exactly 48 hourly and 8 daily slots — the
loops are bounded by `OM_NUM_HOURLY`/`OM_NUM_DAILY`, so excess payload
entries are dropped and no write occurs at or beyond the bounds, for
payloads of any length (in particular payloads with ≥ 48 hourly and ≥ 8
daily entries parse to exactly 48 and 8 entries). -/
theorem c3_fixed_capacity (s : String) (r : OmRespForecast)
    (h48 : r.hourly.length = 48) (h8 : r.daily.length = 8) :
    (deserializeForecast s r).2.hourly.length = 48 ∧
    (deserializeForecast s r).2.daily.length = 8 := by
  cases h : jsonParse s with
  | none => simp [deserializeForecast, h, h48, h8]
  | some doc =>
    simp only [deserializeForecast, h, parseForecastDoc]
    rw [foldl_set_length, foldl_set_length, h48, h8]
    exact ⟨rfl, rfl⟩

/-- C3 witness: a concrete run on the empty-object payload and the zeroed
record keeps both sequence lengths at their fixed capacities. -/
theorem c3_fixed_capacity_witness :
    zeroForecastRecord.hourly.length = 48 ∧ zeroForecastRecord.daily.length = 8 ∧
    (deserializeForecast ("\x7b\x7d") zeroForecastRecord).2.hourly.length = 48 ∧
    (deserializeForecast ("\x7b\x7d") zeroForecastRecord).2.daily.length = 8 := by
  refine ⟨by decide, by decide, ?_, ?_⟩
  · exact (c3_fixed_capacity ("\x7b\x7d") zeroForecastRecord (by decide) (by decide)).1
  · exact (c3_fixed_capacity ("\x7b\x7d") zeroForecastRecord (by decide) (by decide)).2

/-- C5: after every successful forecast parse the returned record has
`current.sunrise` and `current.sunset` equal to the sunrise and sunset of
`daily[0]` — the parser copies them there unconditionally after the daily
loop. -/
theorem c5_sunrise_sunset_copy (s : String) (r : OmRespForecast)
    (h8 : r.daily.length = 8)
    (hok : (deserializeForecast s r).1 = DeserializationError.ok) :
    (deserializeForecast s r).2.current.sunrise =
      ((deserializeForecast s r).2.daily.getD 0 zeroDaily).sunrise ∧
    (deserializeForecast s r).2.current.sunset =
      ((deserializeForecast s r).2.daily.getD 0 zeroDaily).sunset := by
  cases h : jsonParse s with
  | none => rw [deserializeForecast, h] at hok; simp at hok
  | some doc =>
    simp [deserializeForecast, h, parseForecastDoc]

/-- C5 witness: on the empty-object payload the parse succeeds and the copied
sunrise/sunset agree with the first daily slot. -/
theorem c5_sunrise_sunset_copy_witness :
    (deserializeForecast ("\x7b\x7d") zeroForecastRecord).1 = DeserializationError.ok ∧
    (deserializeForecast ("\x7b\x7d") zeroForecastRecord).2.current.sunrise =
      ((deserializeForecast ("\x7b\x7d") zeroForecastRecord).2.daily.getD 0 zeroDaily).sunrise := by
  refine ⟨rfl, ?_⟩
  exact (c5_sunrise_sunset_copy ("\x7b\x7d") zeroForecastRecord (by decide) (by rfl)).1

/-- C9: when the payload text is not valid JSON, both deserializers return
before writing any field: the caller-supplied record comes back unchanged. -/
theorem c9_unchanged_on_error (s : String) (rf : OmRespForecast)
    (ra : OmRespAirQuality) (h : (jsonParse s).isSome = false) :
    (deserializeForecast s rf).2 = rf ∧ (deserializeAirQuality s ra).2 = ra := by
  cases hj : jsonParse s with
  | none => simp [deserializeForecast, deserializeAirQuality, hj]
  | some doc => rw [hj] at h; simp at h

/-- C9 witness: the truncated payload consisting of a lone opening brace is
invalid JSON and leaves a concrete record untouched. -/
theorem c9_unchanged_on_error_witness :
    (jsonParse ("\x7b")).isSome = false ∧
    (deserializeForecast ("\x7b") zeroForecastRecord).2 = zeroForecastRecord ∧
    (deserializeAirQuality ("\x7b") ⟨7⟩).2 = (⟨7⟩ : OmRespAirQuality) := by
  refine ⟨by decide, ?_, ?_⟩
  · exact (c9_unchanged_on_error ("\x7b") zeroForecastRecord ⟨7⟩ (by decide)).1
  · exact (c9_unchanged_on_error ("\x7b") zeroForecastRecord ⟨7⟩ (by decide)).2

/-- Unfolding of the hourly sequence produced by `parseForecastDoc`: the
bounded lock-step loop over the parallel hourly arrays. -/
theorem parseForecastDoc_hourly (doc : JVal) (r : OmRespForecast) :
    (parseForecastDoc doc r).hourly =
      (List.range (min OM_NUM_HOURLY (forecastHourlyCount doc))).foldl
        (fun acc i => acc.set i (parseHourlySlot (member doc ("hourly")) i)) r.hourly := rfl

/-- Unfolding of the daily sequence produced by `parseForecastDoc`. -/
theorem parseForecastDoc_daily (doc : JVal) (r : OmRespForecast) :
    (parseForecastDoc doc r).daily =
      (List.range (min OM_NUM_DAILY (forecastDailyCount doc))).foldl
        (fun acc i => acc.set i (parseDailySlot (member doc ("daily")) i)) r.daily := rfl

/-- C4: for a well-formed forecast payload with fewer than 48 hourly (or
fewer than 8 daily) entries, the slots at or beyond the supplied count are
never written by the loops, so in the record handed in by the caller in its
documented zero/default initial state they still hold the zero/epoch-zero
defaults after a successful parse. -/
theorem c4_trailing_slots_default (doc : JVal) (j : Nat) :
    (forecastHourlyCount doc < 48 → forecastHourlyCount doc ≤ j →
      (parseForecastDoc doc zeroForecastRecord).hourly.getD j zeroHourly = zeroHourly) ∧
    (forecastDailyCount doc < 8 → forecastDailyCount doc ≤ j →
      (parseForecastDoc doc zeroForecastRecord).daily.getD j zeroDaily = zeroDaily) := by
  constructor
  · intro hlt hle
    rw [parseForecastDoc_hourly, foldl_set_getD_not_mem]
    · exact getD_replicate_self 48 j zeroHourly
    · intro i hi
      rw [List.mem_range] at hi
      have h2 : min OM_NUM_HOURLY (forecastHourlyCount doc) ≤ forecastHourlyCount doc :=
        Nat.min_le_right _ _
      omega
  · intro hlt hle
    rw [parseForecastDoc_daily, foldl_set_getD_not_mem]
    · exact getD_replicate_self 8 j zeroDaily
    · intro i hi
      rw [List.mem_range] at hi
      have h2 : min OM_NUM_DAILY (forecastDailyCount doc) ≤ forecastDailyCount doc :=
        Nat.min_le_right _ _
      omega

/-- C4 witness: a payload with no hourly and no daily entries leaves concrete
trailing slots at the zero defaults. -/
theorem c4_trailing_slots_default_witness :
    forecastHourlyCount JVal.jnull < 48 ∧ forecastDailyCount JVal.jnull < 8 ∧
    (parseForecastDoc JVal.jnull zeroForecastRecord).hourly.getD 5 zeroHourly = zeroHourly ∧
    (parseForecastDoc JVal.jnull zeroForecastRecord).daily.getD 5 zeroDaily = zeroDaily := by
  refine ⟨by decide, by decide, ?_, ?_⟩
  · exact (c4_trailing_slots_default JVal.jnull 5).1 (by decide) (by decide)
  · exact (c4_trailing_slots_default JVal.jnull 5).2 (by decide) (by decide)

/-- C6 counterexample: `"2024-01-15x"` matches neither of the two documented
shapes (`YYYY-MM-DD`, `YYYY-MM-DDTHH:MM`), yet `parseISO8601` returns a
nonzero timestamp for it — `sscanf` stops at the trailing garbage with three
conversions done, which the code accepts.  This refutes the claim that every
string matching neither shape yields 0. -/
theorem c6_counterexample :
    specDateShape ("2024-01-15x") = false ∧
    specDateTimeShape ("2024-01-15x") = false ∧
    parseISO8601 ("2024-01-15x") ≠ 0 := by
  refine ⟨by decide, by decide, by decide⟩

/-- C6 (amended): `parseISO8601` maps `"2024-01-15T14:00"` to an epoch value
whose local calendar fields are 2024-01-15 14:00:00, maps `"2024-01-15"` to
local 2024-01-15 12:00:00 (hour defaults to 12, minute to 0), and returns 0
for the empty string and for every string whose prefix does not scan as at
least three dash-separated integers (strings that do so scan — even with
trailing garbage — yield the epoch of the scanned fields instead). -/
theorem c6_amended :
    civilFromEpoch (parseISO8601 ("2024-01-15T14:00")) = ⟨2024, 1, 15, 14, 0, 0⟩ ∧
    civilFromEpoch (parseISO8601 ("2024-01-15")) = ⟨2024, 1, 15, 12, 0, 0⟩ ∧
    parseISO8601 ("") = 0 ∧
    parseISO8601 ("garbage") = 0 ∧
    (∀ s : String, (scanISO s).count < 3 → parseISO8601 s = 0) := by
  refine ⟨by decide, by decide, by decide, by decide, ?_⟩
  intro s h
  simp only [parseISO8601]
  rw [if_neg (by omega : ¬ 3 ≤ (scanISO s).count)]

/-- C6 witness: a concrete string that scans fewer than three integers maps
to 0. -/
theorem c6_amended_witness :
    (scanISO ("12-34oops")).count < 3 ∧ parseISO8601 ("12-34oops") = 0 :=
  ⟨by decide, c6_amended.2.2.2.2 ("12-34oops") (by decide)⟩

/-- C7: each scalar field whose key is missing or of the wrong type receives
its documented per-field default — humidity 0, visibility 10000, day/night
flag "day" (`is_day = 1`), timezone `"UTC"` — and on the two literal
air-quality bodies the parsed AQI is 42 and 0 respectively. -/
theorem c7_documented_defaults (doc : JVal) (r : OmRespForecast) :
    (isIntCompatible (member (member doc ("current")) ("relative_humidity_2m")) = false →
      (parseForecastDoc doc r).current.humidity = 0) ∧
    (isIntCompatible (member (member doc ("current")) ("visibility")) = false →
      (parseForecastDoc doc r).current.visibility = 10000) ∧
    (isIntCompatible (member (member doc ("current")) ("is_day")) = false →
      (parseForecastDoc doc r).current.is_day = 1) ∧
    (isStrCompatible (member doc ("timezone")) = false →
      (parseForecastDoc doc r).timezone = ("UTC")) ∧
    deserializeAirQuality ("\x7b\"current\":\x7b\"us_aqi\":42\x7d\x7d") zeroAirQualityRecord =
      (DeserializationError.ok, (⟨42⟩ : OmRespAirQuality)) ∧
    deserializeAirQuality ("\x7b\"current\":\x7b\x7d\x7d") zeroAirQualityRecord =
      (DeserializationError.ok, (⟨0⟩ : OmRespAirQuality)) := by
  refine ⟨?_, ?_, ?_, ?_, by decide, by decide⟩
  · intro h
    exact asIntOr_default _ _ h
  · intro h
    exact asIntOr_default _ _ h
  · intro h
    exact asIntOr_default _ _ h
  · intro h
    exact asStrOr_default _ _ h

/-- C7 witness: on a payload carrying none of the keys, all four defaults
appear in the parsed record. -/
theorem c7_documented_defaults_witness :
    (parseForecastDoc JVal.jnull zeroForecastRecord).current.humidity = 0 ∧
    (parseForecastDoc JVal.jnull zeroForecastRecord).current.visibility = 10000 ∧
    (parseForecastDoc JVal.jnull zeroForecastRecord).current.is_day = 1 ∧
    (parseForecastDoc JVal.jnull zeroForecastRecord).timezone = ("UTC") :=
  ⟨(c7_documented_defaults JVal.jnull zeroForecastRecord).1 rfl,
    (c7_documented_defaults JVal.jnull zeroForecastRecord).2.1 rfl,
    (c7_documented_defaults JVal.jnull zeroForecastRecord).2.2.1 rfl,
    (c7_documented_defaults JVal.jnull zeroForecastRecord).2.2.2.1 rfl⟩

/-- C8: when the pressure field of the payload carries a decimal (float)
value, the parsed pressure is that value truncated toward zero to an integer
number of hPa (`static_cast<int>`), not rounded. -/
theorem c8_pressure_truncation (doc : JVal) (r : OmRespForecast) (q : ℚ)
    (h : member (member doc ("current")) ("pressure_msl") = JVal.jfloat q) :
    (parseForecastDoc doc r).current.pressure = ratTrunc q := by
  show ratTrunc (asFloatOr (member (member doc ("current")) ("pressure_msl")) 0) = ratTrunc q
  rw [h]
  rfl

/-- C8 witness: pressure 4055/4 = 1013.75 hPa parses to 1013 (truncation),
where rounding would give 1014. -/
theorem c8_pressure_truncation_witness :
    (parseForecastDoc
      (JVal.jobj [(("current"), JVal.jobj [(("pressure_msl"), JVal.jfloat (mkRat 4055 4))])])
      zeroForecastRecord).current.pressure = 1013 ∧
    ratTrunc (mkRat 4055 4) = 1013 := by
  constructor
  · rw [c8_pressure_truncation
      (JVal.jobj [(("current"), JVal.jobj [(("pressure_msl"), JVal.jfloat (mkRat 4055 4))])])
      zeroForecastRecord (mkRat 4055 4) rfl]
    decide
  · decide

/-- C10: `parseISO8601` accepts any string whose prefix scans as at least
three dash-separated integers, returning the epoch of the scanned fields
with unscanned hour defaulting to 12 and minute to 0; in particular the
partial time `"2024-01-15T14"` (hour scanned, minute defaulted) and the
trailing-garbage string `"2024-01-15x"` (hour 12, minute 0) both yield a
nonzero timestamp. -/
theorem c10_lenient_scan :
    (∀ s : String, 3 ≤ (scanISO s).count →
      parseISO8601 s = mktimeModel ((scanISO s).year - 1900) ((scanISO s).month - 1)
        (scanISO s).day (scanISO s).hour (scanISO s).minute 0) ∧
    (scanISO ("2024-01-15T14")).count = 4 ∧
    (scanISO ("2024-01-15T14")).hour = 14 ∧
    (scanISO ("2024-01-15T14")).minute = 0 ∧
    parseISO8601 ("2024-01-15T14") ≠ 0 ∧
    (scanISO ("2024-01-15x")).count = 3 ∧
    (scanISO ("2024-01-15x")).hour = 12 ∧
    (scanISO ("2024-01-15x")).minute = 0 ∧
    parseISO8601 ("2024-01-15x") ≠ 0 := by
  refine ⟨?_, by decide, by decide, by decide, by decide, by decide, by decide, by decide,
    by decide⟩
  intro s h
  simp only [parseISO8601]
  rw [if_pos h]

/-- C10 witness: the general scan rule applied to the partial-time string. -/
theorem c10_lenient_scan_witness :
    3 ≤ (scanISO ("2024-01-15T14")).count ∧
    parseISO8601 ("2024-01-15T14") =
      mktimeModel ((scanISO ("2024-01-15T14")).year - 1900)
        ((scanISO ("2024-01-15T14")).month - 1) (scanISO ("2024-01-15T14")).day
        (scanISO ("2024-01-15T14")).hour (scanISO ("2024-01-15T14")).minute 0 :=
  ⟨by decide, c10_lenient_scan.1 ("2024-01-15T14") (by decide)⟩

/-- C2: in every run of the `getForecast`/`getAirQuality` retry loop, at most
as many attempts are made as the configured budget, the number of fixed
inter-attempt delays is one less than the number of attempts (delays occur
only between attempts), every attempt that was followed by another ended in
one of the four retryable transport outcomes (connection refused −1, not
connected −4, connection lost −5, read timeout −11 — exactly the codes
`isRetryableError` accepts), and the loop exits after the first attempt on a
success, on a non-200 non-retryable outcome, and on a parse failure of a 200
body. -/
theorem c2_retry_policy (attempts : List Attempt) (rf : OmRespForecast)
    (ra : OmRespAirQuality) :
    ((getForecastLoop attempts rf).attemptsUsed ≤ attempts.length ∧
      (getAirQualityLoop attempts ra).attemptsUsed ≤ attempts.length) ∧
    ((getForecastLoop attempts rf).delays =
        (getForecastLoop attempts rf).attemptsUsed - 1 ∧
      (getAirQualityLoop attempts ra).delays =
        (getAirQualityLoop attempts ra).attemptsUsed - 1) ∧
    (∀ j : Nat, j + 1 < (getForecastLoop attempts rf).attemptsUsed →
      isRetryableError (attempts.getD j ((0 : Int), "")).1 = true) ∧
    (∀ j : Nat, j + 1 < (getAirQualityLoop attempts ra).attemptsUsed →
      isRetryableError (attempts.getD j ((0 : Int), "")).1 = true) ∧
    (∀ code : Int, isRetryableError code = true ↔
      (code = -1 ∨ code = -4 ∨ code = -5 ∨ code = -11)) ∧
    (∀ (code : Int) (body : String) (rest : List Attempt),
      attempts = (code, body) :: rest →
      ((code = 200 → (deserializeForecast body rf).1 = DeserializationError.ok →
        getForecastLoop attempts rf = ⟨true, (deserializeForecast body rf).2, 1, 0⟩) ∧
      (code ≠ 200 → isRetryableError code = false →
        getForecastLoop attempts rf = ⟨false, rf, 1, 0⟩) ∧
      (code = 200 → (deserializeForecast body rf).1 ≠ DeserializationError.ok →
        getForecastLoop attempts rf = ⟨false, (deserializeForecast body rf).2, 1, 0⟩))) := by
  refine ⟨⟨retryLoop_attempts_le _ _ _, retryLoop_attempts_le _ _ _⟩,
    ⟨retryLoop_delays _ _ _, retryLoop_delays _ _ _⟩,
    fun j h => retryLoop_consumed_retryable _ _ _ j h,
    fun j h => retryLoop_consumed_retryable _ _ _ j h, ?_, ?_⟩
  · intro code
    rw [isRetryableError]
    split_ifs with h1 h2 h3 h4 <;> simp_all
  · intro code body rest heq
    subst heq
    refine ⟨?_, ?_, ?_⟩
    · intro h200 hok
      simp [getForecastLoop, retryFetchLoop, h200, hok]
    · intro h200 hnr
      simp [getForecastLoop, retryFetchLoop, h200, hnr]
    · intro h200 hok
      simp [getForecastLoop, retryFetchLoop, h200, hok]

/-- C2 witness: a concrete run — a read-refused first attempt followed by a
successful attempt with a parseable body — uses two attempts with one delay,
and the consumed first attempt was retryable. -/
theorem c2_retry_policy_witness :
    (getForecastLoop [((-1 : Int), ""), ((200 : Int), ("\x7b\x7d"))] zeroForecastRecord).attemptsUsed ≤ 2 ∧
    (getForecastLoop [((-1 : Int), ""), ((200 : Int), ("\x7b\x7d"))] zeroForecastRecord).ok = true ∧
    (getForecastLoop [((-1 : Int), ""), ((200 : Int), ("\x7b\x7d"))] zeroForecastRecord).delays = 1 ∧
    isRetryableError (([((-1 : Int), ""), ((200 : Int), ("\x7b\x7d"))].getD 0 ((0 : Int), ""))).1 = true := by
  refine ⟨?_, by decide, by decide, ?_⟩
  · exact (c2_retry_policy [((-1 : Int), ""), ((200 : Int), ("\x7b\x7d"))]
      zeroForecastRecord zeroAirQualityRecord).1.1
  · exact (c2_retry_policy [((-1 : Int), ""), ((200 : Int), ("\x7b\x7d"))]
      zeroForecastRecord zeroAirQualityRecord).2.2.1 0 (by decide)
